import Mathlib

/-!
Verification of the geometric analysis engine of the golf-green rating app
(source: src/index.tsx, first — canonical — snapshot, lines 160-540).

Modelling conventions (shallow embedding):
* JavaScript numbers are modelled as exact rationals (ℚ).  Decimal literals
  of the source (1.09361, 0.25, 0.82, 3.6, 1e-10, ...) are taken at their
  exact decimal value.
* The transcendental library functions Math.sin, Math.cos, Math.atan2,
  Math.sqrt and the constant Math.PI have no exact rational counterpart;
  they are abstracted as a parameter record `TransOps`.  Every engine
  function takes the record as an explicit argument, and structural claims
  are proved for all instantiations.  Concrete witnesses instantiate the
  record with simple computable functions.
* JavaScript `null` becomes `Option.none`; objects become structures;
  `Array.prototype` loops become folds over lists in the same order.
* `Math.round` rounds half-up towards +infinity, exactly like Lean's
  `round` on ℚ (`round x = ⌊x + 1/2⌋`).
-/

/-- Abstraction of the transcendental functions of JavaScript's Math
    library used by the engine. -/
structure TransOps where
  sin : ℚ → ℚ
  cos : ℚ → ℚ
  atan2 : ℚ → ℚ → ℚ
  sqrt : ℚ → ℚ
  pi : ℚ

/-- GeoPoint of src/index.tsx lines 40-48 (the optional `type` tag is never
    read by the engine and is omitted). -/
structure GeoPoint where
  lat : ℚ
  lng : ℚ
  alt : Option ℚ
  accuracy : ℚ
  altAccuracy : Option ℚ
  timestamp : ℚ
deriving DecidableEq

instance : Inhabited GeoPoint := ⟨⟨0, 0, none, 0, none, 0⟩⟩

/-- Earth radius constant `R = 6371e3` appearing in every engine function. -/
def earthR : ℚ := 6371000

/-- Meters-to-yards factor `1.09361` of the source. -/
def ydPerM : ℚ := 1.09361

/-- Rounding to one decimal: `Math.round(x * 10) / 10`. -/
def round1 (x : ℚ) : ℚ := ((round (x * 10) : ℤ) : ℚ) / 10

/-- calculateDistance (src/index.tsx lines 160-168): haversine great-circle
    distance in meters. -/
def calculateDistance (O : TransOps) (p1 p2 : GeoPoint) : ℚ :=
  let lat1 := p1.lat * O.pi / 180
  let lat2 := p2.lat * O.pi / 180
  let dphi := (p2.lat - p1.lat) * O.pi / 180
  let dlam := (p2.lng - p1.lng) * O.pi / 180
  let a := O.sin (dphi / 2) * O.sin (dphi / 2) +
    O.cos lat1 * O.cos lat2 * O.sin (dlam / 2) * O.sin (dlam / 2)
  earthR * 2 * O.atan2 (O.sqrt a) (O.sqrt (1 - a))

/-- Cross-product style term `x_i * y_j - x_j * y_i` of the shoelace sum. -/
def shoeTerm (a b : ℚ × ℚ) : ℚ := a.1 * b.2 - b.1 * a.2

/-- The accumulated signed shoelace sum of calculateArea's loop
    (`for i; j = (i+1) % n; area += x_i*y_j - x_j*y_i`). -/
def shoelaceSum (coords : List (ℚ × ℚ)) : ℚ :=
  ∑ i ∈ Finset.range coords.length,
    shoeTerm (coords.getD i (0, 0)) (coords.getD ((i + 1) % coords.length) (0, 0))

/-- Reference latitude (radians) used by the planar projections:
    latitude of the first point of the list. -/
def refRad (O : TransOps) (points : List GeoPoint) : ℚ :=
  (points.headD default).lat * O.pi / 180

/-- Planar projection, x coordinate (`toX` closures of the source):
    `p.lng * PI/180 * R * cos(latRef)`. -/
def projX (O : TransOps) (latRef : ℚ) (p : GeoPoint) : ℚ :=
  p.lng * O.pi / 180 * earthR * O.cos latRef

/-- Planar projection, y coordinate (`toY` closures of the source):
    `p.lat * PI/180 * R`. -/
def projY (O : TransOps) (p : GeoPoint) : ℚ :=
  p.lat * O.pi / 180 * earthR

/-- Inverse projection (`fromXY` closures of the source). -/
def fromXY (O : TransOps) (latRef x y : ℚ) : GeoPoint :=
  { lat := (y / earthR) * (180 / O.pi)
    lng := (x / (earthR * O.cos latRef)) * (180 / O.pi)
    alt := none, accuracy := 0, altAccuracy := some 0, timestamp := 0 }

/-- calculateArea (src/index.tsx lines 190-204): unsigned shoelace area on
    the planar projection anchored at the FIRST point's latitude. -/
def calculateArea (O : TransOps) (points : List GeoPoint) : ℚ :=
  if points.length < 3 then 0
  else
    let lat0 := (points.headD default).lat * O.pi / 180
    let coords := points.map (fun p =>
      (p.lng * O.pi / 180 * earthR * O.cos lat0, p.lat * O.pi / 180 * earthR))
    |shoelaceSum coords| / 2

/-- Cross product `cp` of getConvexHull (src/index.tsx line 209), evaluated
    on raw (lng, lat) degree coordinates. -/
def hullCp (a b c : GeoPoint) : ℚ :=
  (b.lng - a.lng) * (c.lat - a.lat) - (b.lat - a.lat) * (c.lng - a.lng)

/-- Comparator of the sort at src/index.tsx line 208: ascending longitude,
    ties broken by ascending latitude. -/
def hullLe (a b : GeoPoint) : Bool :=
  decide (a.lng < b.lng) || (decide (a.lng = b.lng) && decide (a.lat ≤ b.lat))

/-- Stable insertion into an already sorted list: the new element goes
    after every element that compares less-or-equal, matching the stable
    `Array.prototype.sort` of the source. -/
def sortedInsert (le : GeoPoint → GeoPoint → Bool) (x : GeoPoint) :
    List GeoPoint → List GeoPoint
  | [] => [x]
  | y :: ys => if le y x then y :: sortedInsert le x ys else x :: y :: ys

/-- Stable sort by repeated insertion (JS `sort` is stable; any stable
    sort under the same total preorder yields the same list). -/
def stableSort (le : GeoPoint → GeoPoint → Bool) (l : List GeoPoint) : List GeoPoint :=
  l.foldl (fun acc x => sortedInsert le x acc) []

/-- The `while (chain.length >= 2 && cp(..) <= 0) chain.pop()` loop of the
    monotone-chain construction; the accumulator keeps the chain in
    reverse order (most recently pushed point first). -/
def popChain : List GeoPoint → GeoPoint → List GeoPoint
  | b :: a :: rest, p => if hullCp a b p ≤ 0 then popChain (a :: rest) p else b :: a :: rest
  | acc, _ => acc

/-- One lower/upper chain of the monotone-chain hull, in reverse order. -/
def buildChain (pts : List GeoPoint) : List GeoPoint :=
  pts.foldl (fun acc p => p :: popChain acc p) []

/-- getConvexHull (src/index.tsx lines 206-223): monotone-chain convex hull
    on (lng, lat) coordinates; returns the input unchanged for fewer than
    3 points.  `chain.pop()` at the end corresponds to dropping the head of
    the reversed chain. -/
def getConvexHull (points : List GeoPoint) : List GeoPoint :=
  if points.length < 3 then points
  else
    let pts := stableSort hullLe points
    let lower := (buildChain pts).tail.reverse
    let upper := (buildChain pts.reverse).tail.reverse
    lower ++ upper

/-- The signed offsets `t` of the intersections of the line
    `axisPoint + t * normal` with the polygon edge segments
    (the `intersections` array of getWidthAtAxisPoint,
    src/index.tsx lines 226-236).  Consecutive pairs of `polyPoints`,
    same order as the source loop. -/
def widthIntersections (midX midY nx ny : ℚ) (polyPoints : List GeoPoint)
    (toX toY : GeoPoint → ℚ) : List ℚ :=
  (polyPoints.zip polyPoints.tail).foldr
    (fun pq acc =>
      let x1 := toX pq.1
      let y1 := toY pq.1
      let x2 := toX pq.2
      let y2 := toY pq.2
      let sx := x2 - x1
      let sy := y2 - y1
      let det := -sx * ny + sy * nx
      if |det| < 1e-10 then acc
      else
        let u := (-(midX - x1) * ny + (midY - y1) * nx) / det
        let t := (sx * (midY - y1) - sy * (midX - x1)) / det
        if 0 ≤ u ∧ u ≤ 1 then t :: acc else acc)
    []

/-- Result `{minT, maxT}` of the Width Sampler. -/
structure WidthT where
  minT : ℚ
  maxT : ℚ
deriving DecidableEq

/-- Spread minimum `Math.min(...list)` for a nonempty list. -/
def listMin : List ℚ → ℚ
  | [] => 0
  | a :: as => as.foldl min a

/-- Spread maximum `Math.max(...list)` for a nonempty list. -/
def listMax : List ℚ → ℚ
  | [] => 0
  | a :: as => as.foldl max a

/-- getWidthAtAxisPoint (src/index.tsx lines 225-239): null when fewer than
    two valid intersections exist, otherwise the extreme signed offsets. -/
def getWidthAtAxisPoint (midX midY nx ny : ℚ) (polyPoints : List GeoPoint)
    (toX toY : GeoPoint → ℚ) : Option WidthT :=
  let intersections := widthIntersections midX midY nx ny polyPoints toX toY
  if intersections.length < 2 then none
  else some ⟨listMin intersections, listMax intersections⟩

/-- isPointInPolygon (src/index.tsx lines 241-250): even-odd ray casting on
    planar coordinates; the loop pairs index i with trailing index j
    ((0, n-1), (1, 0), ..., (n-1, n-2)). -/
def isPointInPolygon (p : ℚ × ℚ) (polygon : List (ℚ × ℚ)) : Bool :=
  let n := polygon.length
  (List.range n).foldl
    (fun inside i =>
      let j := if i = 0 then n - 1 else i - 1
      let xi := (polygon.getD i (0, 0)).1
      let yi := (polygon.getD i (0, 0)).2
      let xj := (polygon.getD j (0, 0)).1
      let yj := (polygon.getD j (0, 0)).2
      let intersect := (decide (yi > p.2) != decide (yj > p.2)) &&
        decide (p.1 < (xj - xi) * (p.2 - yi) / (yj - yi) + xi)
      if intersect then !inside else inside)
    false

/-- All unordered point pairs in source order: the nested
    `for i; for j = i+1` loops of the diameter search. -/
def allPairs : List GeoPoint → List (GeoPoint × GeoPoint)
  | [] => []
  | a :: as => (as.map (fun b => (a, b))) ++ allPairs as

/-- Diameter search of getEGDAnalysis (src/index.tsx lines 285-293):
    running maximum over all pairs, strict improvement only, initial state
    `maxD = 0, pA = pB = points[0]`. -/
def diamSearch (O : TransOps) (points : List GeoPoint) : ℚ × GeoPoint × GeoPoint :=
  let p0 := points.headD default
  (allPairs points).foldl
    (fun acc pq =>
      let d := calculateDistance O pq.1 pq.2
      if d > acc.1 then (d, pq.1, pq.2) else acc)
    (0, p0, p0)

/-- Value `maxD` of the diameter search. -/
def egdMaxD (O : TransOps) (points : List GeoPoint) : ℚ := (diamSearch O points).1

/-- Diameter endpoint `pA`. -/
def egdPA (O : TransOps) (points : List GeoPoint) : GeoPoint := (diamSearch O points).2.1

/-- Diameter endpoint `pB`. -/
def egdPB (O : TransOps) (points : List GeoPoint) : GeoPoint := (diamSearch O points).2.2

/-- Reference latitude (radians) of the EGD projection: `pA.lat * PI / 180`
    (src/index.tsx line 295).  Shared by performAnomalousAnalysis. -/
def aRefRad (O : TransOps) (pA : GeoPoint) : ℚ := pA.lat * O.pi / 180

/-- Planar axis vector pA -> pB under the pA-referenced projection. -/
def axisDx (O : TransOps) (pA pB : GeoPoint) : ℚ :=
  projX O (aRefRad O pA) pB - projX O (aRefRad O pA) pA

/-- Planar axis vector pA -> pB under the pA-referenced projection. -/
def axisDy (O : TransOps) (pA pB : GeoPoint) : ℚ :=
  projY O pB - projY O pA

/-- Axis magnitude `mag = Math.sqrt(dx*dx + dy*dy)` — the planar length of the diameter
    axis; computed identically at src/index.tsx lines 304-307 and 395-399. -/
def axisMag (O : TransOps) (pA pB : GeoPoint) : ℚ :=
  O.sqrt (axisDx O pA pB * axisDx O pA pB + axisDy O pA pB * axisDy O pA pB)

/-- Normal direction `nx = -dy / mag` (division by zero never reached:
    callers bail out on `mag = 0` first). -/
def axisNx (O : TransOps) (pA pB : GeoPoint) : ℚ := -axisDy O pA pB / axisMag O pA pB

/-- Normal direction `ny = dx / mag`. -/
def axisNy (O : TransOps) (pA pB : GeoPoint) : ℚ := axisDx O pA pB / axisMag O pA pB

/-- Closed polygon edge list `polyPoints = [...points, points[0]]`. -/
def closedPoly (points : List GeoPoint) : List GeoPoint :=
  points ++ [points.headD default]

/-- Width Sampler call of the EGD analyzer at fraction `frac` along the
    pA -> pB axis (frac = 1/2 for the midpoint width, 1/4 and 3/4 for the
    quarter-width consistency samples, src/index.tsx lines 314-326). -/
def egdWidthAt (O : TransOps) (points : List GeoPoint) (frac : ℚ) : Option WidthT :=
  let pA := egdPA O points
  let pB := egdPB O points
  let latRef := aRefRad O pA
  let xA := projX O latRef pA
  let yA := projY O pA
  let xB := projX O latRef pB
  let yB := projY O pB
  getWidthAtAxisPoint (xA + (xB - xA) * frac) (yA + (yB - yA) * frac)
    (axisNx O pA pB) (axisNy O pA pB) (closedPoly points)
    (projX O latRef) (projY O)

/-- Length in yards: `L_yds = maxD * 1.09361`. -/
def egdL (O : TransOps) (points : List GeoPoint) : ℚ := egdMaxD O points * ydPerM

/-- Midpoint width in yards: `W_yds = (midW ? maxT - minT : 0) * 1.09361`.
    The source computes the midpoint query point as
    `(xA+xB)/2 = xA + (xB-xA) * (1/2)`. -/
def egdW (O : TransOps) (points : List GeoPoint) : ℚ :=
  (match egdWidthAt O points (1/2) with
    | some w => w.maxT - w.minT
    | none => 0) * ydPerM

/-- Guarded ratio `W_yds === 0 ? 0 : L_yds / W_yds` (src/index.tsx line 330). -/
def egdRatio (O : TransOps) (points : List GeoPoint) : ℚ :=
  if egdW O points = 0 then 0 else egdL O points / egdW O points

/-- Output of the method-selection block of getEGDAnalysis
    (src/index.tsx lines 332-369): EGD value before rounding, method label,
    inconsistency flag and the two quarter widths in yards. -/
structure EGDSel where
  egdRaw : ℚ
  method : String
  isInconsistent : Bool
  w1y : ℚ
  w3y : ℚ
deriving DecidableEq

/-- The ratio-based formula cascade (src/index.tsx lines 358-368). -/
def ratioSelect (L W ratio w1v w3v : ℚ) : EGDSel :=
  if ratio ≥ 3 then ⟨(3 * W + L) / 4, "One dimension three times the other", false, w1v, w3v⟩
  else if ratio ≥ 2 then ⟨(2 * W + L) / 3, "One dimension twice the other", false, w1v, w3v⟩
  else ⟨(L + W) / 2, "Average (L+W)/2", false, w1v, w3v⟩

/-- Full method selection (src/index.tsx lines 339-369): forced simple
    average, else quarter-width inconsistency check, else ratio cascade. -/
def egdSelect (forceSimpleAverage : Bool) (L W ratio : ℚ) (w1 w3 : Option WidthT) : EGDSel :=
  if forceSimpleAverage then ⟨(L + W) / 2, "Average (L+W)/2", false, 0, 0⟩
  else
    match w1, w3 with
    | some a, some b =>
      let w1y := (a.maxT - a.minT) * ydPerM
      let w3y := (b.maxT - b.minT) * ydPerM
      if |w1y - w3y| / max w1y w3y > 0.25 then
        ⟨(L + (w1y + w3y) / 2) / 2, "One dimension not consistent", true, w1y, w3y⟩
      else ratioSelect L W ratio w1y w3y
    | _, _ => ratioSelect L W ratio 0 0

/-- Result record of getEGDAnalysis (src/index.tsx lines 374-380). -/
structure EGDResult where
  egd : ℚ
  L : ℚ
  W : ℚ
  ratio : ℚ
  pA : GeoPoint
  pB : GeoPoint
  pC : GeoPoint
  pD : GeoPoint
  method : String
  isInconsistent : Bool
  w1_yds : ℚ
  w3_yds : ℚ
  pC1 : Option GeoPoint
  pD1 : Option GeoPoint
  pC3 : Option GeoPoint
  pD3 : Option GeoPoint
deriving DecidableEq

instance : Inhabited EGDResult :=
  ⟨⟨0, 0, 0, 0, default, default, default, default, "", false, 0, 0, none, none, none, none⟩⟩

/-- Endpoint of a width segment for display: the geographic point
    `fromXY(qX + nx * t, qY + ny * t)` at signed offset `t` from the axis
    point at fraction `frac`. -/
def egdSegEnd (O : TransOps) (points : List GeoPoint) (frac t : ℚ) : GeoPoint :=
  let pA := egdPA O points
  let pB := egdPB O points
  let latRef := aRefRad O pA
  let xA := projX O latRef pA
  let yA := projY O pA
  let xB := projX O latRef pB
  let yB := projY O pB
  fromXY O latRef (xA + (xB - xA) * frac + axisNx O pA pB * t)
    (yA + (yB - yA) * frac + axisNy O pA pB * t)

/-- The record returned by getEGDAnalysis once both guards
    (≥ 3 points, nonzero axis) have passed.  The quarter-width endpoint
    fields pC1/pD1/pC3/pD3 are set exactly in the inconsistent branch
    (src/index.tsx lines 346-355), pC/pD use the midpoint width offsets
    with `midW?.maxT || 0` fallback (lines 371-372). -/
def egdResultOf (O : TransOps) (points : List GeoPoint) (forceSimpleAverage : Bool) : EGDResult :=
  let w1 := egdWidthAt O points (1/4)
  let w3 := egdWidthAt O points (3/4)
  let sel := egdSelect forceSimpleAverage (egdL O points) (egdW O points) (egdRatio O points) w1 w3
  let midW := egdWidthAt O points (1/2)
  { egd := round1 sel.egdRaw
    L := egdL O points
    W := egdW O points
    ratio := egdRatio O points
    pA := egdPA O points
    pB := egdPB O points
    pC := egdSegEnd O points (1/2) (match midW with | some w => w.maxT | none => 0)
    pD := egdSegEnd O points (1/2) (match midW with | some w => w.minT | none => 0)
    method := sel.method
    isInconsistent := sel.isInconsistent
    w1_yds := sel.w1y
    w3_yds := sel.w3y
    pC1 := if sel.isInconsistent then
        (match w1 with | some a => some (egdSegEnd O points (1/4) a.maxT) | none => none)
      else none
    pD1 := if sel.isInconsistent then
        (match w1 with | some a => some (egdSegEnd O points (1/4) a.minT) | none => none)
      else none
    pC3 := if sel.isInconsistent then
        (match w3 with | some b => some (egdSegEnd O points (3/4) b.maxT) | none => none)
      else none
    pD3 := if sel.isInconsistent then
        (match w3 with | some b => some (egdSegEnd O points (3/4) b.minT) | none => none)
      else none }

/-- getEGDAnalysis (src/index.tsx lines 282-381): null for fewer than three
    points (line 283) and for a zero-length planar diameter axis
    (line 308), otherwise the assembled result record. -/
def getEGDAnalysis (O : TransOps) (points : List GeoPoint) (forceSimpleAverage : Bool) :
    Option EGDResult :=
  if points.length < 3 then none
  else if axisMag O (egdPA O points) (egdPB O points) = 0 then none
  else some (egdResultOf O points forceSimpleAverage)

/-- One labeled perpendicular width sample of the anomalous analysis. -/
structure SampledWidth where
  w : ℚ
  p1 : GeoPoint
  p2 : GeoPoint
  label : String
  color : String
deriving DecidableEq

/-- Result record of performAnomalousAnalysis (src/index.tsx lines 458-466). -/
structure AnomalousResult where
  method : String
  isAnomalous : Bool
  isManualReq : Bool
  curvedLength : ℚ
  straightLength : ℚ
  spine : List GeoPoint
  widths : List SampledWidth
deriving DecidableEq

instance : Inhabited AnomalousResult := ⟨⟨"", false, false, 0, 0, [], []⟩⟩

/-- Width Sampler call of the anomalous analysis at fraction `t` along the
    pA -> pB axis (src/index.tsx lines 411-417 and 436-440); same geometry
    as `egdWidthAt` but with the diameter endpoints passed explicitly. -/
def anomWidthAt (O : TransOps) (points : List GeoPoint) (pA pB : GeoPoint) (t : ℚ) :
    Option WidthT :=
  let latRef := aRefRad O pA
  let xA := projX O latRef pA
  let yA := projY O pA
  getWidthAtAxisPoint (xA + axisDx O pA pB * t) (yA + axisDy O pA pB * t)
    (axisNx O pA pB) (axisNy O pA pB) (closedPoly points)
    (projX O latRef) (projY O)

/-- Geographic point at fraction `t` along the axis, offset by signed
    distance `s` along the normal (`fromXY(curX + nx*s, curY + ny*s)`). -/
def anomPointAt (O : TransOps) (pA pB : GeoPoint) (t s : ℚ) : GeoPoint :=
  let latRef := aRefRad O pA
  fromXY O latRef (projX O latRef pA + axisDx O pA pB * t + axisNx O pA pB * s)
    (projY O pA + axisDy O pA pB * t + axisNy O pA pB * s)

/-- Spine construction (src/index.tsx lines 408-423): 16 samples at
    `t = i/15`, `i = 0..15`; where the Width Sampler resolves, the midpoint
    of the two boundary crossings joins the spine, other samples are
    skipped. -/
def spineOf (O : TransOps) (points : List GeoPoint) (pA pB : GeoPoint) : List GeoPoint :=
  (List.range 16).foldr
    (fun i acc =>
      let t := (i : ℚ) / 15
      match anomWidthAt O points pA pB t with
      | some res => anomPointAt O pA pB t ((res.minT + res.maxT) / 2) :: acc
      | none => acc)
    []

/-- Curved spine length in meters (src/index.tsx lines 426-429): sum of
    consecutive haversine distances along the spine. -/
def curvedLenOf (O : TransOps) (spinePoints : List GeoPoint) : ℚ :=
  ((spinePoints.zip spinePoints.tail).map (fun pq => calculateDistance O pq.1 pq.2)).sum

/-- The three milestone samples at 25%, 50%, 75% with their fixed labels and
    colors (src/index.tsx lines 431-450); unresolved samples are skipped. -/
def sampledWidthsOf (O : TransOps) (points : List GeoPoint) (pA pB : GeoPoint) :
    List SampledWidth :=
  ([(0.25, "W1", "#fb923c"), (0.5, "W2", "#facc15"), (0.75, "W3", "#f472b6")] :
      List (ℚ × String × String)).foldr
    (fun m acc =>
      match anomWidthAt O points pA pB m.1 with
      | some res =>
        { w := (res.maxT - res.minT) * ydPerM
          p1 := anomPointAt O pA pB m.1 res.maxT
          p2 := anomPointAt O pA pB m.1 res.minT
          label := m.2.1
          color := m.2.2 } :: acc
      | none => acc)
    []

/-- The record returned by performAnomalousAnalysis once the nonzero-axis
    guard has passed (src/index.tsx lines 452-466). -/
def anomalousResultOf (O : TransOps) (points : List GeoPoint) (pA pB : GeoPoint) :
    AnomalousResult :=
  let spinePoints := spineOf O points pA pB
  let curvedLenYds := curvedLenOf O spinePoints * ydPerM
  let straightLenYds := axisMag O pA pB * ydPerM
  { method := "Anomalous Green Detected"
    isAnomalous := true
    isManualReq := curvedLenYds > straightLenYds * 1.15
    curvedLength := curvedLenYds
    straightLength := straightLenYds
    spine := spinePoints
    widths := sampledWidthsOf O points pA pB }

/-- performAnomalousAnalysis (src/index.tsx lines 384-467): null exactly
    when the planar pA -> pB axis is degenerate (`mag === 0`, line 401). -/
def performAnomalousAnalysis (O : TransOps) (points : List GeoPoint) (pA pB : GeoPoint) :
    Option AnomalousResult :=
  if axisMag O pA pB = 0 then none
  else some (anomalousResultOf O points pA pB)

/-- Planar coordinates of the perimeter under the projection anchored at
    the FIRST perimeter point (`polyCoords`, src/index.tsx line 482). -/
def greenPolyCoords (O : TransOps) (points : List GeoPoint) : List (ℚ × ℚ) :=
  points.map (fun p => (projX O (refRad O points) p, projY O p))

/-- Planar midpoint of the segment p -> q under the same projection
    (src/index.tsx lines 484-485 and 512-518). -/
def greenMidpoint (O : TransOps) (points : List GeoPoint) (p q : GeoPoint) : ℚ × ℚ :=
  ((projX O (refRad O points) p + projX O (refRad O points) q) / 2,
    (projY O p + projY O q) / 2)

/-- Concavity ratio (src/index.tsx lines 474-476):
    `hullArea > 0 ? polyArea / hullArea : 1`. -/
def concavityOf (O : TransOps) (points : List GeoPoint) : ℚ :=
  let polyArea := calculateArea O points
  let hullArea := calculateArea O (getConvexHull points)
  if hullArea > 0 then polyArea / hullArea else 1

/-- The midpoint-outside test of the Shape Classifier (src/index.tsx
    line 486). -/
def midpointIsOutside (O : TransOps) (points : List GeoPoint) (pA pB : GeoPoint) : Bool :=
  !isPointInPolygon (greenMidpoint O points pA pB) (greenPolyCoords O points)

/-- The L-shape disjunction of src/index.tsx line 488, evaluated on the
    basic EGD result `basic`. -/
def isLShapeOf (O : TransOps) (points : List GeoPoint) (concavityThreshold : ℚ)
    (basic : EGDResult) : Bool :=
  midpointIsOutside O points basic.pA basic.pB ||
    decide (concavityOf O points < concavityThreshold) || decide (basic.ratio > 3.6)

/-- Elbow search (src/index.tsx lines 490-505): index of the perimeter
    point with maximum perpendicular distance from the pA -> pB line under
    the points[0]-referenced projection; running maximum starting from -1,
    strict improvement only. -/
def elbowIndexOf (O : TransOps) (points : List GeoPoint) (pA pB : GeoPoint) : ℕ :=
  let latRef := refRad O points
  let xA := projX O latRef pA
  let yA := projY O pA
  let xB := projX O latRef pB
  let yB := projY O pB
  let dx := xB - xA
  let dy := yB - yA
  let mag := O.sqrt (dx * dx + dy * dy)
  (points.enum.foldl
    (fun best ip =>
      let px := projX O latRef ip.2
      let py := projY O ip.2
      let dist := |(xB - xA) * (yA - py) - (xA - px) * (yB - yA)| / mag
      if dist > best.1 then (dist, ip.1) else best)
    ((-1 : ℚ), 0)).2

/-- Shape-classification result (src/index.tsx lines 528-539): the spread
    `{...basic}` with a possibly overridden method label, plus the
    classifier fields. -/
structure ShapeAnalysis where
  base : EGDResult
  isLShape : Bool
  hasAnomaly : Bool
  anomalousResult : Option AnomalousResult
  s1 : Option EGDResult
  s2 : Option EGDResult
deriving DecidableEq

instance : Inhabited ShapeAnalysis := ⟨⟨default, false, false, none, none, none⟩⟩

/-- The L-shape branch of analyzeGreenShape (src/index.tsx lines 490-536):
    split at the elbow, re-analyze both halves with forceSimpleAverage,
    check both sub-diameters' midpoints against the ORIGINAL polygon, and
    on anomaly run the anomalous analyzer on the ORIGINAL polygon and
    whole-shape diameter endpoints. -/
def shapeLOf (O : TransOps) (points : List GeoPoint) (basic : EGDResult) : ShapeAnalysis :=
  let elbowIdx := elbowIndexOf O points basic.pA basic.pB
  let s1 := getEGDAnalysis O (points.take (elbowIdx + 1)) true
  let s2 := getEGDAnalysis O (points.drop elbowIdx) true
  let ha1 := match s1 with
    | some r => !isPointInPolygon (greenMidpoint O points r.pA r.pB) (greenPolyCoords O points)
    | none => false
  let hasAnomaly := if !ha1 then
      match s2 with
      | some r => !isPointInPolygon (greenMidpoint O points r.pA r.pB) (greenPolyCoords O points)
      | none => false
    else ha1
  let anomalousResult := if hasAnomaly then performAnomalousAnalysis O points basic.pA basic.pB
    else none
  { base := { basic with
      method := match anomalousResult with | some a => a.method | none => "Two portions" }
    isLShape := true
    hasAnomaly := hasAnomaly
    anomalousResult := anomalousResult
    s1 := s1
    s2 := s2 }

/-- analyzeGreenShape (src/index.tsx lines 469-540). -/
def analyzeGreenShape (O : TransOps) (points : List GeoPoint) (concavityThreshold : ℚ) :
    Option ShapeAnalysis :=
  if points.length < 3 then none
  else
    match getEGDAnalysis O points false with
    | none => none
    | some basic =>
      if isLShapeOf O points concavityThreshold basic then some (shapeLOf O points basic)
      else
        some
          { base := basic
            isLShape := false
            hasAnomaly := false
            anomalousResult := none
            s1 := none
            s2 := none }

/-! ## Concrete instantiations used by witnesses and counterexamples -/

/-- A simple computable instantiation of the transcendental operations.
    With `pi = 180` the degree-to-radian conversions become the identity;
    the particular functions are irrelevant to the structural claims. -/
def evalOps : TransOps :=
  { sin := fun x => x
    cos := fun _ => 1
    atan2 := fun y _ => y
    sqrt := fun x => x
    pi := 180 }

/-- An instantiation whose cosine genuinely varies with latitude
    (truncated Taylor series), used to exhibit the dependence of
    calculateArea on the first vertex's latitude. -/
def cexOps : TransOps :=
  { sin := fun x => x
    cos := fun x => 1 - x * x / 2
    atan2 := fun y _ => y
    sqrt := fun x => x
    pi := 3 }

/-- Abbreviation for a perimeter point with only coordinates set. -/
def gp (lat lng : ℚ) : GeoPoint := ⟨lat, lng, none, 0, none, 0⟩

/-- Three distinct collinear points: a degenerate perimeter on which the
    basic EGD analysis succeeds with zero width, the diameter midpoint lies
    outside the (empty-interior) polygon, the elbow lands at index 0, and
    the anomaly branch fires. -/
def colPts : List GeoPoint := [gp 0 0, gp 0 1, gp 0 3]

/-- A square perimeter traced from the corner OPPOSITE the lexicographic
    minimum, so the hull traversal starts at a different vertex. -/
def sqPts : List GeoPoint := [gp 10 10, gp 10 0, gp 0 0, gp 0 10]

/-- A right triangle whose quarter widths along the diameter (the
    hypotenuse) differ by a factor three: triggers the inconsistency
    branch. -/
def triPts : List GeoPoint := [gp 0 0, gp 0 40, gp 12 0]

/-- A triangle with vertices at three different latitudes, whose area under
    `cexOps` changes when the starting vertex changes. -/
def cpts7 : List GeoPoint := [gp 0 0, gp 90 0, gp 0 90]

/-- The list `cpts7` rotated left by one position. -/
def cpts7rot : List GeoPoint := [gp 90 0, gp 0 90, gp 0 0]

instance : Inhabited WidthT := ⟨⟨0, 0⟩⟩

/-- Three coincident points: the diameter search finds no positive
    distance and the planar axis is degenerate. -/
def dupPts : List GeoPoint := [gp 1 1, gp 1 1, gp 1 1]

/-! ## General helper lemmas -/

theorem opt_eq_some_getD {α : Type} (o : Option α) (d : α) (h : o.isSome = true) :
    o = some (o.getD d) := by
  cases o <;> simp_all

/-- Inversion for getEGDAnalysis: a returned result is exactly the
    assembled record, and both guards passed. -/
theorem getEGDAnalysis_eq_some {O : TransOps} {points : List GeoPoint}
    {force : Bool} {r : EGDResult} (h : getEGDAnalysis O points force = some r) :
    ¬points.length < 3 ∧ axisMag O (egdPA O points) (egdPB O points) ≠ 0 ∧
      r = egdResultOf O points force := by
  unfold getEGDAnalysis at h
  split at h
  · exact absurd h (by simp)
  · split at h
    · exact absurd h (by simp)
    · exact ⟨by assumption, by assumption, (Option.some_inj.mp h).symm⟩

/-- Inversion for analyzeGreenShape: a returned result comes from the
    L-shape branch or from the simple branch. -/
theorem analyzeGreenShape_eq_some {O : TransOps} {points : List GeoPoint}
    {thr : ℚ} {r : ShapeAnalysis} (h : analyzeGreenShape O points thr = some r) :
    ∃ basic, getEGDAnalysis O points false = some basic ∧
      ((isLShapeOf O points thr basic = true ∧ r = shapeLOf O points basic) ∨
        (isLShapeOf O points thr basic = false ∧
          r = ⟨basic, false, false, none, none, none⟩)) := by
  unfold analyzeGreenShape at h
  split at h
  · exact absurd h (by simp)
  · rename_i hlen
    rcases hb : getEGDAnalysis O points false with _ | basic
    · rw [hb] at h; exact absurd h (by simp)
    · rw [hb] at h
      dsimp only at h
      refine ⟨basic, rfl, ?_⟩
      by_cases hL : isLShapeOf O points thr basic = true
      · rw [if_pos hL] at h
        exact Or.inl ⟨hL, (Option.some_inj.mp h).symm⟩
      · rw [if_neg hL] at h
        exact Or.inr ⟨by simpa using hL, (Option.some_inj.mp h).symm⟩

/-! ## Shoelace invariance lemmas -/

theorem sum_range_mod_shift (n k : ℕ) (F : ℕ → ℚ) :
    ∑ i ∈ Finset.range n, F ((i + k) % n) = ∑ i ∈ Finset.range n, F i := by
  rcases Nat.eq_zero_or_pos n with hn | hn
  · subst hn; simp
  · have hk := Nat.div_add_mod k n
    have hkn : k % n < n := Nat.mod_lt _ hn
    refine Finset.sum_nbij' (fun i => (i + k) % n) (fun j => (j + (n - k % n)) % n)
      (fun a ha => Finset.mem_range.mpr (Nat.mod_lt _ hn))
      (fun b hb => Finset.mem_range.mpr (Nat.mod_lt _ hn)) ?_ ?_ (fun a ha => rfl)
    · intro a ha
      have ha' := Finset.mem_range.mp ha
      dsimp only
      rw [Nat.mod_add_mod]
      have h2 : n * (k / n + 1) = n * (k / n) + n := by ring
      have h1 : a + k + (n - k % n) = a + n * (k / n + 1) := by omega
      rw [h1, Nat.add_mul_mod_self_left, Nat.mod_eq_of_lt ha']
    · intro b hb
      have hb' := Finset.mem_range.mp hb
      dsimp only
      rw [Nat.mod_add_mod]
      have h2 : n * (k / n + 1) = n * (k / n) + n := by ring
      have h1 : b + (n - k % n) + k = b + n * (k / n + 1) := by omega
      rw [h1, Nat.add_mul_mod_self_left, Nat.mod_eq_of_lt hb']

theorem shoelace_rotate (c : List (ℚ × ℚ)) (k : ℕ) :
    shoelaceSum (c.rotate k) = shoelaceSum c := by
  rcases Nat.eq_zero_or_pos c.length with hn | hn
  · rw [List.length_eq_zero.mp hn]; simp [List.rotate]
  · unfold shoelaceSum
    rw [List.length_rotate]
    have hstep : ∀ i ∈ Finset.range c.length,
        shoeTerm ((c.rotate k).getD i (0, 0))
          ((c.rotate k).getD ((i + 1) % c.length) (0, 0)) =
        shoeTerm (c.getD ((i + k) % c.length) (0, 0))
          (c.getD (((i + k) % c.length + 1) % c.length) (0, 0)) := by
      intro i hi
      have hi' := Finset.mem_range.mp hi
      have hi1 : (i + 1) % c.length < c.length := Nat.mod_lt _ hn
      have hrl : i < (c.rotate k).length := by rw [List.length_rotate]; exact hi'
      have hrl1 : (i + 1) % c.length < (c.rotate k).length := by
        rw [List.length_rotate]; exact hi1
      rw [List.getD_eq_getElem _ _ hrl, List.getD_eq_getElem _ _ hrl1,
        List.getElem_rotate, List.getElem_rotate,
        ← List.getD_eq_getElem c (0, 0) (Nat.mod_lt _ hn),
        ← List.getD_eq_getElem c (0, 0) (Nat.mod_lt _ hn)]
      have hidx : ((i + 1) % c.length + k) % c.length =
          ((i + k) % c.length + 1) % c.length := by
        rw [Nat.mod_add_mod, Nat.mod_add_mod]
        congr 1
        omega
      rw [hidx]
    rw [Finset.sum_congr rfl hstep]
    exact sum_range_mod_shift c.length k
      (fun j => shoeTerm (c.getD j (0, 0)) (c.getD ((j + 1) % c.length) (0, 0)))

theorem shoeTerm_antisymm (a b : ℚ × ℚ) : shoeTerm a b = -shoeTerm b a := by
  unfold shoeTerm; ring

theorem shoelace_reverse (c : List (ℚ × ℚ)) :
    shoelaceSum c.reverse = -shoelaceSum c := by
  rcases Nat.eq_zero_or_pos c.length with hn | hn
  · rw [List.length_eq_zero.mp hn]; simp [shoelaceSum]
  · unfold shoelaceSum
    rw [List.length_reverse]
    have hstep : ∀ i ∈ Finset.range c.length,
        shoeTerm (c.reverse.getD i (0, 0)) (c.reverse.getD ((i + 1) % c.length) (0, 0)) =
          -shoeTerm (c.getD (c.length - 1 - (i + 1) % c.length) (0, 0))
            (c.getD ((c.length - 1 - (i + 1) % c.length + 1) % c.length) (0, 0)) := by
      intro i hi
      have hi' := Finset.mem_range.mp hi
      have hi1 : (i + 1) % c.length < c.length := Nat.mod_lt _ hn
      have hrl : i < c.reverse.length := by rw [List.length_reverse]; exact hi'
      have hrl1 : (i + 1) % c.length < c.reverse.length := by
        rw [List.length_reverse]; exact hi1
      rw [List.getD_eq_getElem _ _ hrl, List.getD_eq_getElem _ _ hrl1,
        List.getElem_reverse, List.getElem_reverse,
        ← List.getD_eq_getElem c (0, 0) (show c.length - 1 - i < c.length by omega),
        ← List.getD_eq_getElem c (0, 0)
          (show c.length - 1 - (i + 1) % c.length < c.length by omega)]
      have hidx : (c.length - 1 - (i + 1) % c.length + 1) % c.length =
          c.length - 1 - i := by
        rcases Nat.lt_or_ge (i + 1) c.length with hlt | hge
        · rw [Nat.mod_eq_of_lt hlt]
          have h1 : c.length - 1 - (i + 1) + 1 = c.length - 1 - i := by omega
          rw [h1, Nat.mod_eq_of_lt (by omega)]
        · have h1 : i + 1 = c.length := by omega
          rw [h1, Nat.mod_self]
          have h2 : c.length - 1 - 0 + 1 = c.length := by omega
          rw [h2, Nat.mod_self]
          omega
      rw [hidx]
      exact shoeTerm_antisymm _ _
    rw [Finset.sum_congr rfl hstep]
    have hbij : ∑ i ∈ Finset.range c.length,
        -shoeTerm (c.getD (c.length - 1 - (i + 1) % c.length) (0, 0))
          (c.getD ((c.length - 1 - (i + 1) % c.length + 1) % c.length) (0, 0)) =
        ∑ j ∈ Finset.range c.length,
          -shoeTerm (c.getD j (0, 0)) (c.getD ((j + 1) % c.length) (0, 0)) := by
      refine Finset.sum_nbij' (fun i => c.length - 1 - (i + 1) % c.length)
        (fun j => (2 * c.length - 2 - j) % c.length) ?_ ?_ ?_ ?_ ?_
      · intro a ha
        dsimp only
        exact Finset.mem_range.mpr (by omega)
      · intro b hb
        dsimp only
        exact Finset.mem_range.mpr (Nat.mod_lt _ hn)
      · intro a ha
        have ha' := Finset.mem_range.mp ha
        dsimp only
        rcases Nat.lt_or_ge (a + 1) c.length with hlt | hge
        · rw [Nat.mod_eq_of_lt hlt]
          have h1 : 2 * c.length - 2 - (c.length - 1 - (a + 1)) = c.length + a := by
            omega
          rw [h1, Nat.add_mod_left, Nat.mod_eq_of_lt ha']
        · have h1 : a + 1 = c.length := by omega
          rw [h1, Nat.mod_self]
          have h2 : 2 * c.length - 2 - (c.length - 1 - 0) = c.length - 1 := by omega
          have h3 : (c.length - 1) % c.length = c.length - 1 :=
            Nat.mod_eq_of_lt (by omega)
          rw [h2, h3]
          omega
      · intro b hb
        have hb' := Finset.mem_range.mp hb
        dsimp only
        rcases Nat.lt_or_ge b (c.length - 1) with hlt | hge
        · have h1 : 2 * c.length - 2 - b = c.length + (c.length - 2 - b) := by omega
          have h2 : (c.length - 2 - b) % c.length = c.length - 2 - b :=
            Nat.mod_eq_of_lt (by omega)
          rw [h1, Nat.add_mod_left, h2]
          have h3 : c.length - 2 - b + 1 = c.length - 1 - b := by omega
          have h4 : (c.length - 1 - b) % c.length = c.length - 1 - b :=
            Nat.mod_eq_of_lt (by omega)
          rw [h3, h4]
          omega
        · have h1 : b = c.length - 1 := by omega
          have h2 : 2 * c.length - 2 - b = c.length - 1 := by omega
          have h3 : (c.length - 1) % c.length = c.length - 1 :=
            Nat.mod_eq_of_lt (by omega)
          rw [h2, h3]
          have h4 : c.length - 1 + 1 = c.length := by omega
          rw [h4, Nat.mod_self]
          omega
      · intro a ha
        rfl
    rw [hbij]
    rw [← Finset.sum_neg_distrib]

/-- Invariance of calculateArea under cyclic rotation and reversal of the
    perimeter, PROVIDED the projection scale factor at the (possibly
    different) first vertex is unchanged.  The unconditional invariance
    claimed by the specification fails because the projection is anchored
    at the first vertex of the list. -/
theorem calculateArea_invariance (O : TransOps) (l1 l2 : List GeoPoint)
    (hrot : l1.IsRotated l2 ∨ l1.reverse.IsRotated l2)
    (hcos : O.cos (refRad O l2) = O.cos (refRad O l1)) :
    calculateArea O l2 = calculateArea O l1 := by
  have hlen : l2.length = l1.length := by
    rcases hrot with h | h
    · exact h.perm.length_eq.symm
    · rw [← h.perm.length_eq, List.length_reverse]
  unfold refRad at hcos
  unfold calculateArea
  rw [hlen]
  by_cases hsmall : l1.length < 3
  · rw [if_pos hsmall, if_pos hsmall]
  · rw [if_neg hsmall, if_neg hsmall]
    simp only [hcos]
    rcases hrot with ⟨k, hk⟩ | ⟨k, hk⟩
    · rw [← hk, List.map_rotate, shoelace_rotate]
    · rw [← hk, List.map_rotate, shoelace_rotate, List.map_reverse, shoelace_reverse,
        abs_neg]

/-! ## Method-selection lemmas -/

theorem egdSelect_force (L W ratio : ℚ) (w1 w3 : Option WidthT) :
    egdSelect true L W ratio w1 w3 = ⟨(L + W) / 2, "Average (L+W)/2", false, 0, 0⟩ := by
  simp [egdSelect]

theorem egdSelect_not_inconsistent (L W ratio : ℚ) (w1 w3 : Option WidthT)
    (h : (egdSelect false L W ratio w1 w3).isInconsistent = false) :
    ∃ a b, egdSelect false L W ratio w1 w3 = ratioSelect L W ratio a b := by
  unfold egdSelect at h ⊢
  cases w1 with
  | none => cases w3 <;> exact ⟨0, 0, by simp⟩
  | some a =>
    cases w3 with
    | none => exact ⟨0, 0, by simp⟩
    | some b =>
      simp only [Bool.false_eq_true, if_false] at h ⊢
      split at h
      · simp at h
      · exact ⟨(a.maxT - a.minT) * ydPerM, (b.maxT - b.minT) * ydPerM, by
          split
          · rename_i hcond
            exact absurd hcond (by assumption)
          · rfl⟩

theorem ratioSelect_ge3 (L W ratio a b : ℚ) (h : 3 ≤ ratio) :
    ratioSelect L W ratio a b =
      ⟨(3 * W + L) / 4, "One dimension three times the other", false, a, b⟩ := by
  unfold ratioSelect
  rw [if_pos h]

theorem ratioSelect_ge2 (L W ratio a b : ℚ) (h3 : ratio < 3) (h2 : 2 ≤ ratio) :
    ratioSelect L W ratio a b =
      ⟨(2 * W + L) / 3, "One dimension twice the other", false, a, b⟩ := by
  unfold ratioSelect
  rw [if_neg (by exact not_le.mpr h3), if_pos h2]

theorem ratioSelect_lt2 (L W ratio a b : ℚ) (h2 : ratio < 2) :
    ratioSelect L W ratio a b = ⟨(L + W) / 2, "Average (L+W)/2", false, a, b⟩ := by
  unfold ratioSelect
  rw [if_neg (by exact not_le.mpr (h2.trans (by norm_num))), if_neg (by exact not_le.mpr h2)]

theorem egdSelect_inconsistent_eq (L W ratio : ℚ) (a b : WidthT)
    (hd : |(a.maxT - a.minT) * ydPerM - (b.maxT - b.minT) * ydPerM| /
        max ((a.maxT - a.minT) * ydPerM) ((b.maxT - b.minT) * ydPerM) > 0.25) :
    egdSelect false L W ratio (some a) (some b) =
      ⟨(L + ((a.maxT - a.minT) * ydPerM + (b.maxT - b.minT) * ydPerM) / 2) / 2,
        "One dimension not consistent", true,
        (a.maxT - a.minT) * ydPerM, (b.maxT - b.minT) * ydPerM⟩ := by
  unfold egdSelect
  simp only [Bool.false_eq_true, if_false]
  rw [if_pos hd]

/-- Helper: the split sub-analyses attached by the L-shape branch. -/
theorem shapeLOf_split (O : TransOps) (points : List GeoPoint)
    (thr : ℚ) (r : ShapeAnalysis) (h : analyzeGreenShape O points thr = some r)
    (hL : r.isLShape = true) :
    r.s1 = getEGDAnalysis O
      (points.take (elbowIndexOf O points r.base.pA r.base.pB + 1)) true ∧
    r.s2 = getEGDAnalysis O
      (points.drop (elbowIndexOf O points r.base.pA r.base.pB)) true := by
  obtain ⟨basic, hb, hcase⟩ := analyzeGreenShape_eq_some h
  rcases hcase with ⟨-, hr⟩ | ⟨-, hr⟩
  · subst hr
    simp [shapeLOf]
  · subst hr
    simp at hL

/-- Helper: the three-point guard of getEGDAnalysis. -/
theorem getEGDAnalysis_short_none (O : TransOps) (points : List GeoPoint)
    (force : Bool) (h : points.length < 3) : getEGDAnalysis O points force = none := by
  simp [getEGDAnalysis, h]

/-! ## Claims C2, C3, C4 -/

/-- Claim C2: for a perimeter of at least 3 points analyzed with
    forceSimpleAverage = false, when the inconsistency branch does not
    fire the EGD formula is selected by the length/width ratio — ratio >= 3
    gives (3W+L)/4, ratio >= 2 gives (2W+L)/3, otherwise (L+W)/2 — with the
    corresponding method labels, and the returned EGD is rounded to one
    decimal yard. -/
theorem egd_ratio_formula_selection (O : TransOps) (points : List GeoPoint) (r : EGDResult)
    (h : getEGDAnalysis O points false = some r) (hinc : r.isInconsistent = false) :
    (3 ≤ r.ratio → r.egd = round1 ((3 * r.W + r.L) / 4) ∧
      r.method = "One dimension three times the other") ∧
    (r.ratio < 3 → 2 ≤ r.ratio → r.egd = round1 ((2 * r.W + r.L) / 3) ∧
      r.method = "One dimension twice the other") ∧
    (r.ratio < 2 → r.egd = round1 ((r.L + r.W) / 2) ∧ r.method = "Average (L+W)/2") := by
  obtain ⟨-, -, hr⟩ := getEGDAnalysis_eq_some h
  subst hr
  simp only [egdResultOf] at hinc ⊢
  obtain ⟨a, b, hsel⟩ := egdSelect_not_inconsistent _ _ _ _ _ hinc
  rw [hsel]
  refine ⟨?_, ?_, ?_⟩
  · intro h3
    rw [ratioSelect_ge3 _ _ _ _ _ h3]
    exact ⟨rfl, rfl⟩
  · intro h3 h2
    rw [ratioSelect_ge2 _ _ _ _ _ h3 h2]
    exact ⟨rfl, rfl⟩
  · intro h2
    rw [ratioSelect_lt2 _ _ _ _ _ h2]
    exact ⟨rfl, rfl⟩

/-- Claim C3: when both quarter-width samples resolve and differ by more
    than 25% of the larger, the result is flagged inconsistent with method
    label "One dimension not consistent", its EGD is
    (length + average of the quarter widths) / 2 rounded to one decimal
    (so the ratio branches are not applied), and all four quarter-width
    segment endpoints are recorded. -/
theorem egd_inconsistency_branch (O : TransOps) (points : List GeoPoint) (r : EGDResult)
    (a b : WidthT) (h : getEGDAnalysis O points false = some r)
    (h1 : egdWidthAt O points (1/4) = some a) (h3 : egdWidthAt O points (3/4) = some b)
    (hd : |(a.maxT - a.minT) * ydPerM - (b.maxT - b.minT) * ydPerM| /
        max ((a.maxT - a.minT) * ydPerM) ((b.maxT - b.minT) * ydPerM) > 0.25) :
    r.isInconsistent = true ∧ r.method = "One dimension not consistent" ∧
      r.w1_yds = (a.maxT - a.minT) * ydPerM ∧ r.w3_yds = (b.maxT - b.minT) * ydPerM ∧
      r.egd = round1 ((r.L + (r.w1_yds + r.w3_yds) / 2) / 2) ∧
      r.pC1.isSome = true ∧ r.pD1.isSome = true ∧
      r.pC3.isSome = true ∧ r.pD3.isSome = true := by
  obtain ⟨-, -, hr⟩ := getEGDAnalysis_eq_some h
  subst hr
  simp only [egdResultOf, h1, h3]
  rw [egdSelect_inconsistent_eq _ _ _ _ _ hd]
  simp

/-- Claim C4: with forceSimpleAverage = true the EGD analyzer always uses
    (L+W)/2 with method "Average (L+W)/2" and never flags inconsistency;
    and the Shape Classifier invokes the analyzer in exactly this mode on
    the two sub-sequences produced by an L-shape split (prefix up to and
    including the elbow, suffix from the elbow). -/
theorem egd_force_simple_and_split_mode :
    (∀ (O : TransOps) (points : List GeoPoint) (r : EGDResult),
      getEGDAnalysis O points true = some r →
        r.egd = round1 ((r.L + r.W) / 2) ∧ r.method = "Average (L+W)/2" ∧
          r.isInconsistent = false) ∧
    (∀ (O : TransOps) (points : List GeoPoint) (thr : ℚ) (r : ShapeAnalysis),
      analyzeGreenShape O points thr = some r → r.isLShape = true →
        r.s1 = getEGDAnalysis O
          (points.take (elbowIndexOf O points r.base.pA r.base.pB + 1)) true ∧
        r.s2 = getEGDAnalysis O
          (points.drop (elbowIndexOf O points r.base.pA r.base.pB)) true) := by
  constructor
  · intro O points r h
    obtain ⟨-, -, hr⟩ := getEGDAnalysis_eq_some h
    subst hr
    simp only [egdResultOf]
    rw [egdSelect_force]
    exact ⟨rfl, rfl, rfl⟩
  · intro O points thr r h hL
    exact shapeLOf_split O points thr r h hL

/-! ## Claims C5 (amended), C6, C9, C10 -/

/-- Claim C5, amended: the straightLength returned by the anomalous
    analysis is the PLANAR Euclidean length of the projected pA -> pB axis
    times 1.09361 — not the haversine great-circle distance that the
    specification states (see the counterexample below). -/
theorem anomalous_straight_length_planar (O : TransOps) (points : List GeoPoint)
    (pA pB : GeoPoint) (r : AnomalousResult)
    (h : performAnomalousAnalysis O points pA pB = some r) :
    r.straightLength = axisMag O pA pB * ydPerM := by
  unfold performAnomalousAnalysis at h
  split at h
  · exact absurd h (by simp)
  · rw [(Option.some_inj.mp h).symm]
    rfl

/-- Claim C6: every engine entry point fails softly.  The EGD analyzer and
    the Shape Classifier return none for fewer than 3 points; the EGD
    analyzer and the anomalous analyzer return none for a zero-length
    planar diameter axis; the Width Sampler returns none when fewer than
    two valid edge intersections exist.  (All engine functions are total
    Lean functions, so no input can raise an error.) -/
theorem engine_soft_failure :
    (∀ (O : TransOps) (points : List GeoPoint) (force : Bool),
      points.length < 3 → getEGDAnalysis O points force = none) ∧
    (∀ (O : TransOps) (points : List GeoPoint) (thr : ℚ),
      points.length < 3 → analyzeGreenShape O points thr = none) ∧
    (∀ (O : TransOps) (points : List GeoPoint) (force : Bool),
      axisMag O (egdPA O points) (egdPB O points) = 0 →
        getEGDAnalysis O points force = none) ∧
    (∀ (O : TransOps) (points : List GeoPoint) (pA pB : GeoPoint),
      axisMag O pA pB = 0 → performAnomalousAnalysis O points pA pB = none) ∧
    (∀ (midX midY nx ny : ℚ) (polyPoints : List GeoPoint) (toX toY : GeoPoint → ℚ),
      (widthIntersections midX midY nx ny polyPoints toX toY).length < 2 →
        getWidthAtAxisPoint midX midY nx ny polyPoints toX toY = none) := by
  refine ⟨?_, ?_, ?_, ?_, ?_⟩
  · intro O points force h
    exact getEGDAnalysis_short_none O points force h
  · intro O points thr h
    simp [analyzeGreenShape, h]
  · intro O points force h
    simp [getEGDAnalysis, h]
  · intro O points pA pB h
    simp [performAnomalousAnalysis, h]
  · intro midX midY nx ny polyPoints toX toY h
    simp [getWidthAtAxisPoint, h]

/-- Claim C9: whenever the Shape Classifier reports hasAnomaly = true, the
    attached anomalousResult is present: the anomalous analyzer's only null
    case (zero planar axis) is unreachable because the basic EGD analysis
    already succeeded for the same pA, pB under the same pA-referenced
    projection. -/
theorem anomaly_implies_anomalous_result (O : TransOps) (points : List GeoPoint)
    (thr : ℚ) (r : ShapeAnalysis) (h : analyzeGreenShape O points thr = some r)
    (hA : r.hasAnomaly = true) : r.anomalousResult.isSome = true := by
  obtain ⟨basic, hb, hcase⟩ := analyzeGreenShape_eq_some h
  obtain ⟨-, hmag, hbasic⟩ := getEGDAnalysis_eq_some hb
  rcases hcase with ⟨-, hr⟩ | ⟨-, hr⟩
  · subst hr
    simp only [shapeLOf] at hA ⊢
    rw [hA]
    have hpa : basic.pA = egdPA O points := by rw [hbasic]; rfl
    have hpb : basic.pB = egdPB O points := by rw [hbasic]; rfl
    simp [performAnomalousAnalysis, hpa, hpb, hmag]
  · subst hr
    simp at hA

/-- Claim C10: after an L-shape split on n points, the child s1 is none
    whenever the elbow index is below 2 and the child s2 is none whenever
    the elbow index exceeds n-3 (the sub-sequence then has fewer than
    3 points); the concrete witness exhibits a returned analysis with
    isLShape = true carrying s1 = none. -/
theorem lshape_children_null_when_short (O : TransOps) (points : List GeoPoint)
    (thr : ℚ) (r : ShapeAnalysis) (h : analyzeGreenShape O points thr = some r)
    (hL : r.isLShape = true) :
    (elbowIndexOf O points r.base.pA r.base.pB < 2 → r.s1 = none) ∧
    (points.length - 3 < elbowIndexOf O points r.base.pA r.base.pB → r.s2 = none) := by
  have hsplit := shapeLOf_split O points thr r h hL
  constructor
  · intro he
    rw [hsplit.1]
    exact getEGDAnalysis_short_none O _ true (by
      rw [List.length_take]
      omega)
  · intro he
    rw [hsplit.2]
    exact getEGDAnalysis_short_none O _ true (by
      rw [List.length_drop]
      omega)

/-! ## Claim C1 -/

/-- Claim C1: on any perimeter where the basic EGD analysis succeeds (and
    the hull area is positive, so the concavity quotient is the actual
    ratio), the classifier sets isLShape exactly when the diameter midpoint
    falls outside the polygon, OR the concavity ratio
    polygonArea/hullArea is below the threshold, OR the basic length/width
    ratio exceeds 3.6. -/
theorem isLShape_condition (O : TransOps) (points : List GeoPoint) (thr : ℚ)
    (r : ShapeAnalysis) (h : analyzeGreenShape O points thr = some r)
    (hhull : 0 < calculateArea O (getConvexHull points)) :
    r.isLShape = (midpointIsOutside O points r.base.pA r.base.pB ||
      decide (calculateArea O points / calculateArea O (getConvexHull points) < thr) ||
      decide (r.base.ratio > 3.6)) := by
  obtain ⟨basic, hb, hcase⟩ := analyzeGreenShape_eq_some h
  have hconc : concavityOf O points =
      calculateArea O points / calculateArea O (getConvexHull points) := by
    unfold concavityOf
    rw [if_pos hhull]
  rcases hcase with ⟨hL, hr⟩ | ⟨hL, hr⟩ <;> subst hr
  · have hl2 : (shapeLOf O points basic).isLShape = true := by simp [shapeLOf]
    have hpa : (shapeLOf O points basic).base.pA = basic.pA := by simp [shapeLOf]
    have hpb : (shapeLOf O points basic).base.pB = basic.pB := by simp [shapeLOf]
    have hratio : (shapeLOf O points basic).base.ratio = basic.ratio := by simp [shapeLOf]
    rw [hl2, hpa, hpb, hratio, ← hconc]
    unfold isLShapeOf at hL
    exact hL.symm
  · unfold isLShapeOf at hL
    rw [← hconc]
    exact hL.symm

/-! ## Claims C7 and C8 -/

/-- Claim C7, amended: calculateArea is invariant under cyclic rotation and
    under reversal of the point order PROVIDED the projection cosine at the
    new first vertex equals the one at the original first vertex (the
    unconditional claim fails, because the projection is anchored at the
    first vertex's latitude — see the counterexample). -/
theorem polygonArea_rotate_reverse_invariance :
    (∀ (O : TransOps) (l : List GeoPoint) (k : ℕ),
      O.cos (refRad O (l.rotate k)) = O.cos (refRad O l) →
        calculateArea O (l.rotate k) = calculateArea O l) ∧
    (∀ (O : TransOps) (l : List GeoPoint),
      O.cos (refRad O l.reverse) = O.cos (refRad O l) →
        calculateArea O l.reverse = calculateArea O l) := by
  constructor
  · intro O l k hcos
    exact calculateArea_invariance O l (l.rotate k) (Or.inl ⟨k, rfl⟩) hcos
  · intro O l hcos
    exact calculateArea_invariance O l l.reverse (Or.inr ⟨0, List.rotate_zero _⟩) hcos

/-- Claim C7, counterexample: rotating the starting vertex of a triangle
    whose vertices lie at different latitudes changes calculateArea under
    an operations record whose cosine varies with latitude, because the
    projection is re-anchored at the new first vertex. -/
theorem polygonArea_rotation_dependence :
    cpts7.rotate 1 = cpts7rot ∧
      calculateArea cexOps cpts7rot ≠ calculateArea cexOps cpts7 := by
  constructor
  · rfl
  · norm_num [calculateArea, shoelaceSum, shoeTerm, cpts7, cpts7rot, gp, cexOps, earthR,
      Finset.sum_range_succ, Finset.sum_range_zero]

/-- Claim C8, amended: for a perimeter in convex position — the hull
    traversal is a cyclic rotation of the input or of its reverse — whose
    hull-start cosine factor agrees with the input-start one, the polygon
    area equals the hull area and the classifier's concavity value is
    exactly 1. -/
theorem convex_hull_area_concavity (O : TransOps) (points : List GeoPoint)
    (hconv : points.IsRotated (getConvexHull points) ∨
      points.reverse.IsRotated (getConvexHull points))
    (hcos : O.cos (refRad O (getConvexHull points)) = O.cos (refRad O points)) :
    calculateArea O points = calculateArea O (getConvexHull points) ∧
      concavityOf O points = 1 := by
  have harea := calculateArea_invariance O points (getConvexHull points) hconv hcos
  refine ⟨harea.symm, ?_⟩
  unfold concavityOf
  dsimp only
  split
  · rename_i hpos
    rw [← harea]
    exact div_self (ne_of_gt hpos)
  · rfl

/-- Claim C8, counterexample: a square traced from the corner opposite the
    lexicographic minimum is in convex position (its hull is a rotation of
    it), yet its concavity value under a latitude-dependent cosine is
    71/72, not 1, because polygon and hull areas are anchored at different
    first vertices. -/
theorem convex_perimeter_concavity_not_one :
    getConvexHull sqPts = sqPts.rotate 2 ∧ concavityOf cexOps sqPts ≠ 1 := by
  constructor
  · norm_num [getConvexHull, stableSort, sortedInsert, hullLe, hullCp, popChain,
      buildChain, sqPts, gp, List.rotate]
  · norm_num [concavityOf, calculateArea, shoelaceSum, shoeTerm, sqPts, gp, cexOps,
      earthR, getConvexHull, stableSort, sortedInsert, hullLe, hullCp, popChain,
      buildChain, Finset.sum_range_succ, Finset.sum_range_zero, abs_of_nonneg]

/-! ## Witnesses -/

theorem engine_soft_failure_witness :
    getEGDAnalysis evalOps ([] : List GeoPoint) false = none ∧
    analyzeGreenShape evalOps ([] : List GeoPoint) (0.82) = none ∧
    getEGDAnalysis evalOps dupPts false = none ∧
    performAnomalousAnalysis evalOps dupPts (gp 1 1) (gp 1 1) = none ∧
    getWidthAtAxisPoint 0 0 1 0 [] (fun _ => 0) (fun _ => 0) = none := by
  refine ⟨engine_soft_failure.1 evalOps [] false (by simp),
    engine_soft_failure.2.1 evalOps [] (0.82) (by simp),
    engine_soft_failure.2.2.1 evalOps dupPts false ?_,
    engine_soft_failure.2.2.2.1 evalOps dupPts (gp 1 1) (gp 1 1) ?_,
    engine_soft_failure.2.2.2.2 0 0 1 0 [] (fun _ => 0) (fun _ => 0)
      (by simp [widthIntersections])⟩
  · norm_num [axisMag, axisDx, axisDy, aRefRad, projX, projY, egdPA, egdPB, diamSearch,
      allPairs, calculateDistance, evalOps, gp, dupPts, earthR]
  · norm_num [axisMag, axisDx, axisDy, aRefRad, projX, projY, evalOps, gp, earthR]

theorem polygonArea_invariance_witness :
    cexOps.cos (refRad cexOps (sqPts.rotate 1)) = cexOps.cos (refRad cexOps sqPts) ∧
    calculateArea cexOps (sqPts.rotate 1) = calculateArea cexOps sqPts ∧
    evalOps.cos (refRad evalOps sqPts.reverse) = evalOps.cos (refRad evalOps sqPts) ∧
    calculateArea evalOps sqPts.reverse = calculateArea evalOps sqPts := by
  have h1 : cexOps.cos (refRad cexOps (sqPts.rotate 1)) =
      cexOps.cos (refRad cexOps sqPts) := by
    rw [show sqPts.rotate 1 = [gp 10 0, gp 0 0, gp 0 10, gp 10 10] from rfl]
    norm_num [refRad, cexOps, sqPts, gp]
  have h2 : evalOps.cos (refRad evalOps sqPts.reverse) =
      evalOps.cos (refRad evalOps sqPts) := rfl
  exact ⟨h1, polygonArea_rotate_reverse_invariance.1 cexOps sqPts 1 h1, h2,
    polygonArea_rotate_reverse_invariance.2 evalOps sqPts h2⟩

theorem convex_hull_area_witness :
    sqPts.rotate 2 = getConvexHull sqPts ∧
    calculateArea evalOps sqPts = calculateArea evalOps (getConvexHull sqPts) ∧
    concavityOf evalOps sqPts = 1 := by
  have hrot : sqPts.rotate 2 = getConvexHull sqPts := by
    norm_num [getConvexHull, stableSort, sortedInsert, hullLe, hullCp, popChain,
      buildChain, sqPts, gp, List.rotate]
  have h := convex_hull_area_concavity evalOps sqPts (Or.inl ⟨2, hrot⟩) rfl
  exact ⟨hrot, h.1, h.2⟩

/-- Claim C5, counterexample: an anomalous analysis that returns a result
    whose straightLength differs from the haversine distance between the
    diameter endpoints converted to yards — the code uses the planar
    projected length instead. -/
theorem anomalous_straight_length_not_haversine :
    (performAnomalousAnalysis evalOps colPts (gp 0 0) (gp 0 3)).isSome = true ∧
    ((performAnomalousAnalysis evalOps colPts (gp 0 0) (gp 0 3)).getD
        default).straightLength ≠
      calculateDistance evalOps (gp 0 0) (gp 0 3) * ydPerM := by
  constructor
  · norm_num [performAnomalousAnalysis, axisMag, axisDx, axisDy, aRefRad, projX,
      projY, evalOps, gp, earthR]
  · norm_num [performAnomalousAnalysis, anomalousResultOf, axisMag, axisDx, axisDy,
      aRefRad, projX, projY, evalOps, gp, earthR, ydPerM, calculateDistance]

theorem anomalous_straight_length_planar_witness :
    performAnomalousAnalysis evalOps colPts (gp 0 0) (gp 0 3) =
      some ((performAnomalousAnalysis evalOps colPts (gp 0 0) (gp 0 3)).getD default) ∧
    ((performAnomalousAnalysis evalOps colPts (gp 0 0) (gp 0 3)).getD
        default).straightLength = axisMag evalOps (gp 0 0) (gp 0 3) * ydPerM := by
  have hs : performAnomalousAnalysis evalOps colPts (gp 0 0) (gp 0 3) =
      some ((performAnomalousAnalysis evalOps colPts (gp 0 0) (gp 0 3)).getD default) :=
    opt_eq_some_getD _ _ (by
      norm_num [performAnomalousAnalysis, axisMag, axisDx, axisDy, aRefRad, projX,
        projY, evalOps, gp, earthR])
  exact ⟨hs, anomalous_straight_length_planar evalOps colPts (gp 0 0) (gp 0 3) _ hs⟩

theorem egd_ratio_formula_witness :
    getEGDAnalysis evalOps colPts false =
      some ((getEGDAnalysis evalOps colPts false).getD default) ∧
    ((getEGDAnalysis evalOps colPts false).getD default).isInconsistent = false ∧
    ((getEGDAnalysis evalOps colPts false).getD default).ratio < 2 ∧
    ((getEGDAnalysis evalOps colPts false).getD default).egd =
      round1 ((((getEGDAnalysis evalOps colPts false).getD default).L +
        ((getEGDAnalysis evalOps colPts false).getD default).W) / 2) ∧
    ((getEGDAnalysis evalOps colPts false).getD default).method = "Average (L+W)/2" := by
  have hs : getEGDAnalysis evalOps colPts false =
      some ((getEGDAnalysis evalOps colPts false).getD default) :=
    opt_eq_some_getD _ _ (by
      norm_num [getEGDAnalysis, axisMag, axisDx, axisDy, aRefRad, projX, projY,
        egdPA, egdPB, diamSearch, allPairs, calculateDistance, evalOps, gp, colPts,
        earthR])
  have hinc : ((getEGDAnalysis evalOps colPts false).getD default).isInconsistent
      = false := by
    norm_num [getEGDAnalysis, egdResultOf, egdSelect, ratioSelect, egdWidthAt, egdL,
      egdW, egdRatio, egdMaxD, egdPA, egdPB, diamSearch, allPairs, calculateDistance,
      axisMag, axisDx, axisDy, axisNx, axisNy, aRefRad, projX, projY, fromXY,
      closedPoly, getWidthAtAxisPoint, widthIntersections, listMin, listMax,
      egdSegEnd, round1, round_eq, earthR, ydPerM, evalOps, gp, colPts, abs_lt,
      min_def, max_def]
  have hlt : ((getEGDAnalysis evalOps colPts false).getD default).ratio < 2 := by
    norm_num [getEGDAnalysis, egdResultOf, egdSelect, ratioSelect, egdWidthAt, egdL,
      egdW, egdRatio, egdMaxD, egdPA, egdPB, diamSearch, allPairs, calculateDistance,
      axisMag, axisDx, axisDy, axisNx, axisNy, aRefRad, projX, projY, fromXY,
      closedPoly, getWidthAtAxisPoint, widthIntersections, listMin, listMax,
      egdSegEnd, round1, round_eq, earthR, ydPerM, evalOps, gp, colPts, abs_lt,
      min_def, max_def]
  exact ⟨hs, hinc, hlt,
    (egd_ratio_formula_selection evalOps colPts _ hs hinc).2.2 hlt⟩

theorem egd_inconsistency_witness :
    getEGDAnalysis evalOps triPts false =
      some ((getEGDAnalysis evalOps triPts false).getD default) ∧
    egdWidthAt evalOps triPts (1/4) =
      some ((egdWidthAt evalOps triPts (1/4)).getD default) ∧
    egdWidthAt evalOps triPts (3/4) =
      some ((egdWidthAt evalOps triPts (3/4)).getD default) ∧
    |(((egdWidthAt evalOps triPts (1/4)).getD default).maxT -
        ((egdWidthAt evalOps triPts (1/4)).getD default).minT) * ydPerM -
      (((egdWidthAt evalOps triPts (3/4)).getD default).maxT -
        ((egdWidthAt evalOps triPts (3/4)).getD default).minT) * ydPerM| /
      max ((((egdWidthAt evalOps triPts (1/4)).getD default).maxT -
          ((egdWidthAt evalOps triPts (1/4)).getD default).minT) * ydPerM)
        ((((egdWidthAt evalOps triPts (3/4)).getD default).maxT -
          ((egdWidthAt evalOps triPts (3/4)).getD default).minT) * ydPerM) > 0.25 ∧
    ((getEGDAnalysis evalOps triPts false).getD default).isInconsistent = true ∧
    ((getEGDAnalysis evalOps triPts false).getD default).method =
      "One dimension not consistent" := by
  have hs : getEGDAnalysis evalOps triPts false =
      some ((getEGDAnalysis evalOps triPts false).getD default) :=
    opt_eq_some_getD _ _ (by
      norm_num [getEGDAnalysis, axisMag, axisDx, axisDy, aRefRad, projX, projY,
        egdPA, egdPB, diamSearch, allPairs, calculateDistance, evalOps, gp, triPts,
        earthR])
  have h1 : egdWidthAt evalOps triPts (1/4) =
      some ((egdWidthAt evalOps triPts (1/4)).getD default) :=
    opt_eq_some_getD _ _ (by
      norm_num [egdWidthAt, egdPA, egdPB, diamSearch, allPairs, calculateDistance,
        axisMag, axisDx, axisDy, axisNx, axisNy, aRefRad, projX, projY, closedPoly,
        getWidthAtAxisPoint, widthIntersections, evalOps, gp, triPts, earthR, abs_lt])
  have h3 : egdWidthAt evalOps triPts (3/4) =
      some ((egdWidthAt evalOps triPts (3/4)).getD default) :=
    opt_eq_some_getD _ _ (by
      norm_num [egdWidthAt, egdPA, egdPB, diamSearch, allPairs, calculateDistance,
        axisMag, axisDx, axisDy, axisNx, axisNy, aRefRad, projX, projY, closedPoly,
        getWidthAtAxisPoint, widthIntersections, evalOps, gp, triPts, earthR, abs_lt])
  have hd : |(((egdWidthAt evalOps triPts (1/4)).getD default).maxT -
        ((egdWidthAt evalOps triPts (1/4)).getD default).minT) * ydPerM -
      (((egdWidthAt evalOps triPts (3/4)).getD default).maxT -
        ((egdWidthAt evalOps triPts (3/4)).getD default).minT) * ydPerM| /
      max ((((egdWidthAt evalOps triPts (1/4)).getD default).maxT -
          ((egdWidthAt evalOps triPts (1/4)).getD default).minT) * ydPerM)
        ((((egdWidthAt evalOps triPts (3/4)).getD default).maxT -
          ((egdWidthAt evalOps triPts (3/4)).getD default).minT) * ydPerM) > 0.25 := by
    norm_num [egdWidthAt, egdPA, egdPB, diamSearch, allPairs, calculateDistance,
      axisMag, axisDx, axisDy, axisNx, axisNy, aRefRad, projX, projY, closedPoly,
      getWidthAtAxisPoint, widthIntersections, listMin, listMax, evalOps, gp, triPts,
      earthR, ydPerM, abs_lt, abs_of_nonneg, min_def, max_def]
  have hmain := egd_inconsistency_branch evalOps triPts _ _ _ hs h1 h3 hd
  exact ⟨hs, h1, h3, hd, hmain.1, hmain.2.1⟩

theorem isLShape_condition_witness :
    analyzeGreenShape evalOps sqPts (0.82) =
      some ((analyzeGreenShape evalOps sqPts (0.82)).getD default) ∧
    0 < calculateArea evalOps (getConvexHull sqPts) ∧
    ((analyzeGreenShape evalOps sqPts (0.82)).getD default).isLShape =
      (midpointIsOutside evalOps sqPts
          ((analyzeGreenShape evalOps sqPts (0.82)).getD default).base.pA
          ((analyzeGreenShape evalOps sqPts (0.82)).getD default).base.pB ||
        decide (calculateArea evalOps sqPts /
          calculateArea evalOps (getConvexHull sqPts) < 0.82) ||
        decide (((analyzeGreenShape evalOps sqPts (0.82)).getD default).base.ratio
          > 3.6)) := by
  have hs : analyzeGreenShape evalOps sqPts (0.82) =
      some ((analyzeGreenShape evalOps sqPts (0.82)).getD default) :=
    opt_eq_some_getD _ _ (by
      norm_num [analyzeGreenShape, isLShapeOf, midpointIsOutside, greenMidpoint,
        greenPolyCoords, refRad, concavityOf, calculateArea, shoelaceSum, shoeTerm,
        getConvexHull, stableSort, sortedInsert, hullLe, hullCp, popChain, buildChain,
        isPointInPolygon, getEGDAnalysis, egdResultOf, egdSelect, ratioSelect,
        egdWidthAt, egdL, egdW, egdRatio, egdMaxD, egdPA, egdPB, diamSearch, allPairs,
        calculateDistance, axisMag, axisDx, axisDy, axisNx, axisNy, aRefRad, projX,
        projY, fromXY, closedPoly, getWidthAtAxisPoint, widthIntersections, listMin,
        listMax, egdSegEnd, round1, round_eq, earthR, ydPerM, evalOps, gp, sqPts,
        abs_lt, abs_of_nonneg, min_def, max_def, Finset.sum_range_succ,
        Finset.sum_range_zero, show List.range 4 = [0, 1, 2, 3] from rfl])
  have hh : 0 < calculateArea evalOps (getConvexHull sqPts) := by
    norm_num [calculateArea, shoelaceSum, shoeTerm, getConvexHull, stableSort,
      sortedInsert, hullLe, hullCp, popChain, buildChain, evalOps, gp, sqPts, earthR,
      abs_of_nonneg, Finset.sum_range_succ, Finset.sum_range_zero]
  exact ⟨hs, hh, isLShape_condition evalOps sqPts (0.82) _ hs hh⟩

theorem anomaly_implies_anomalous_result_witness :
    analyzeGreenShape evalOps colPts (0.82) =
      some ((analyzeGreenShape evalOps colPts (0.82)).getD default) ∧
    ((analyzeGreenShape evalOps colPts (0.82)).getD default).hasAnomaly = true ∧
    ((analyzeGreenShape evalOps colPts (0.82)).getD default).anomalousResult.isSome
      = true := by
  have hs : analyzeGreenShape evalOps colPts (0.82) =
      some ((analyzeGreenShape evalOps colPts (0.82)).getD default) :=
    opt_eq_some_getD _ _ (by
      norm_num [analyzeGreenShape, isLShapeOf, midpointIsOutside, greenMidpoint,
        greenPolyCoords, refRad, concavityOf, calculateArea, shoelaceSum, shoeTerm,
        getConvexHull, stableSort, sortedInsert, hullLe, hullCp, popChain, buildChain,
        isPointInPolygon, getEGDAnalysis, egdResultOf, egdSelect, ratioSelect,
        egdWidthAt, egdL, egdW, egdRatio, egdMaxD, egdPA, egdPB, diamSearch, allPairs,
        calculateDistance, axisMag, axisDx, axisDy, axisNx, axisNy, aRefRad, projX,
        projY, fromXY, closedPoly, getWidthAtAxisPoint, widthIntersections, listMin,
        listMax, egdSegEnd, round1, round_eq, earthR, ydPerM, evalOps, gp, colPts,
        abs_lt, abs_of_nonneg, min_def, max_def, Finset.sum_range_succ,
        Finset.sum_range_zero, show List.range 3 = [0, 1, 2] from rfl])
  have hA : ((analyzeGreenShape evalOps colPts (0.82)).getD default).hasAnomaly
      = true := by
    norm_num [analyzeGreenShape, shapeLOf, elbowIndexOf, List.enum, List.enumFrom,
      isLShapeOf, midpointIsOutside, greenMidpoint,
      greenPolyCoords, refRad, concavityOf, calculateArea, shoelaceSum, shoeTerm,
      getConvexHull, stableSort, sortedInsert, hullLe, hullCp, popChain, buildChain,
      isPointInPolygon, getEGDAnalysis, egdResultOf, egdSelect, ratioSelect,
      egdWidthAt, egdL, egdW, egdRatio, egdMaxD, egdPA, egdPB, diamSearch, allPairs,
      calculateDistance, axisMag, axisDx, axisDy, axisNx, axisNy, aRefRad, projX,
      projY, fromXY, closedPoly, getWidthAtAxisPoint, widthIntersections, listMin,
      listMax, egdSegEnd, round1, round_eq, earthR, ydPerM, evalOps, gp, colPts,
      abs_lt, abs_of_nonneg, min_def, max_def, Finset.sum_range_succ,
      Finset.sum_range_zero, show List.range 3 = [0, 1, 2] from rfl,
      show List.range 4 = [0, 1, 2, 3] from rfl]
  exact ⟨hs, hA, anomaly_implies_anomalous_result evalOps colPts (0.82) _ hs hA⟩

set_option maxHeartbeats 1600000 in
theorem lshape_children_null_witness :
    analyzeGreenShape evalOps colPts (0.82) =
      some ((analyzeGreenShape evalOps colPts (0.82)).getD default) ∧
    ((analyzeGreenShape evalOps colPts (0.82)).getD default).isLShape = true ∧
    elbowIndexOf evalOps colPts
      ((analyzeGreenShape evalOps colPts (0.82)).getD default).base.pA
      ((analyzeGreenShape evalOps colPts (0.82)).getD default).base.pB < 2 ∧
    ((analyzeGreenShape evalOps colPts (0.82)).getD default).s1 = none := by
  have hs : analyzeGreenShape evalOps colPts (0.82) =
      some ((analyzeGreenShape evalOps colPts (0.82)).getD default) :=
    opt_eq_some_getD _ _ (by
      norm_num [analyzeGreenShape, isLShapeOf, midpointIsOutside, greenMidpoint,
        greenPolyCoords, refRad, concavityOf, calculateArea, shoelaceSum, shoeTerm,
        getConvexHull, stableSort, sortedInsert, hullLe, hullCp, popChain, buildChain,
        isPointInPolygon, getEGDAnalysis, egdResultOf, egdSelect, ratioSelect,
        egdWidthAt, egdL, egdW, egdRatio, egdMaxD, egdPA, egdPB, diamSearch, allPairs,
        calculateDistance, axisMag, axisDx, axisDy, axisNx, axisNy, aRefRad, projX,
        projY, fromXY, closedPoly, getWidthAtAxisPoint, widthIntersections, listMin,
        listMax, egdSegEnd, round1, round_eq, earthR, ydPerM, evalOps, gp, colPts,
        abs_lt, abs_of_nonneg, min_def, max_def, Finset.sum_range_succ,
        Finset.sum_range_zero, show List.range 3 = [0, 1, 2] from rfl])
  have hL : ((analyzeGreenShape evalOps colPts (0.82)).getD default).isLShape
      = true := by
    norm_num [analyzeGreenShape, shapeLOf, elbowIndexOf, List.enum, List.enumFrom,
      isLShapeOf, midpointIsOutside, greenMidpoint,
      greenPolyCoords, refRad, concavityOf, calculateArea, shoelaceSum, shoeTerm,
      getConvexHull, stableSort, sortedInsert, hullLe, hullCp, popChain, buildChain,
      isPointInPolygon, getEGDAnalysis, egdResultOf, egdSelect, ratioSelect,
      egdWidthAt, egdL, egdW, egdRatio, egdMaxD, egdPA, egdPB, diamSearch, allPairs,
      calculateDistance, axisMag, axisDx, axisDy, axisNx, axisNy, aRefRad, projX,
      projY, fromXY, closedPoly, getWidthAtAxisPoint, widthIntersections, listMin,
      listMax, egdSegEnd, round1, round_eq, earthR, ydPerM, evalOps, gp, colPts,
      abs_lt, abs_of_nonneg, min_def, max_def, Finset.sum_range_succ,
      Finset.sum_range_zero, show List.range 3 = [0, 1, 2] from rfl,
      show List.range 4 = [0, 1, 2, 3] from rfl]
  have he : elbowIndexOf evalOps colPts
      ((analyzeGreenShape evalOps colPts (0.82)).getD default).base.pA
      ((analyzeGreenShape evalOps colPts (0.82)).getD default).base.pB < 2 := by
    norm_num [analyzeGreenShape, shapeLOf, elbowIndexOf, List.enum, List.enumFrom,
      isLShapeOf, midpointIsOutside, greenMidpoint,
      greenPolyCoords, refRad, concavityOf, calculateArea, shoelaceSum, shoeTerm,
      getConvexHull, stableSort, sortedInsert, hullLe, hullCp, popChain, buildChain,
      isPointInPolygon, getEGDAnalysis, egdResultOf, egdSelect, ratioSelect,
      egdWidthAt, egdL, egdW, egdRatio, egdMaxD, egdPA, egdPB, diamSearch, allPairs,
      calculateDistance, axisMag, axisDx, axisDy, axisNx, axisNy, aRefRad, projX,
      projY, fromXY, closedPoly, getWidthAtAxisPoint, widthIntersections, listMin,
      listMax, egdSegEnd, round1, round_eq, earthR, ydPerM, evalOps, gp, colPts,
      abs_lt, abs_of_nonneg, min_def, max_def, Finset.sum_range_succ,
      Finset.sum_range_zero, show List.range 3 = [0, 1, 2] from rfl,
      show List.range 4 = [0, 1, 2, 3] from rfl]
  exact ⟨hs, hL, he,
    (lshape_children_null_when_short evalOps colPts (0.82) _ hs hL).1 he⟩

set_option maxHeartbeats 1600000 in
theorem egd_force_simple_and_split_witness :
    getEGDAnalysis evalOps colPts true =
      some ((getEGDAnalysis evalOps colPts true).getD default) ∧
    ((getEGDAnalysis evalOps colPts true).getD default).egd =
      round1 ((((getEGDAnalysis evalOps colPts true).getD default).L +
        ((getEGDAnalysis evalOps colPts true).getD default).W) / 2) ∧
    ((getEGDAnalysis evalOps colPts true).getD default).method = "Average (L+W)/2" ∧
    analyzeGreenShape evalOps colPts (0.82) =
      some ((analyzeGreenShape evalOps colPts (0.82)).getD default) ∧
    ((analyzeGreenShape evalOps colPts (0.82)).getD default).isLShape = true ∧
    ((analyzeGreenShape evalOps colPts (0.82)).getD default).s1 =
      getEGDAnalysis evalOps
        (colPts.take (elbowIndexOf evalOps colPts
          ((analyzeGreenShape evalOps colPts (0.82)).getD default).base.pA
          ((analyzeGreenShape evalOps colPts (0.82)).getD default).base.pB + 1))
        true := by
  have hs1 : getEGDAnalysis evalOps colPts true =
      some ((getEGDAnalysis evalOps colPts true).getD default) :=
    opt_eq_some_getD _ _ (by
      norm_num [getEGDAnalysis, axisMag, axisDx, axisDy, aRefRad, projX, projY,
        egdPA, egdPB, diamSearch, allPairs, calculateDistance, evalOps, gp, colPts,
        earthR])
  have hpart1 := egd_force_simple_and_split_mode.1 evalOps colPts _ hs1
  have hs : analyzeGreenShape evalOps colPts (0.82) =
      some ((analyzeGreenShape evalOps colPts (0.82)).getD default) :=
    opt_eq_some_getD _ _ (by
      norm_num [analyzeGreenShape, isLShapeOf, midpointIsOutside, greenMidpoint,
        greenPolyCoords, refRad, concavityOf, calculateArea, shoelaceSum, shoeTerm,
        getConvexHull, stableSort, sortedInsert, hullLe, hullCp, popChain, buildChain,
        isPointInPolygon, getEGDAnalysis, egdResultOf, egdSelect, ratioSelect,
        egdWidthAt, egdL, egdW, egdRatio, egdMaxD, egdPA, egdPB, diamSearch, allPairs,
        calculateDistance, axisMag, axisDx, axisDy, axisNx, axisNy, aRefRad, projX,
        projY, fromXY, closedPoly, getWidthAtAxisPoint, widthIntersections, listMin,
        listMax, egdSegEnd, round1, round_eq, earthR, ydPerM, evalOps, gp, colPts,
        abs_lt, abs_of_nonneg, min_def, max_def, Finset.sum_range_succ,
        Finset.sum_range_zero, show List.range 3 = [0, 1, 2] from rfl])
  have hL : ((analyzeGreenShape evalOps colPts (0.82)).getD default).isLShape
      = true := by
    norm_num [analyzeGreenShape, shapeLOf, elbowIndexOf, List.enum, List.enumFrom,
      isLShapeOf, midpointIsOutside, greenMidpoint,
      greenPolyCoords, refRad, concavityOf, calculateArea, shoelaceSum, shoeTerm,
      getConvexHull, stableSort, sortedInsert, hullLe, hullCp, popChain, buildChain,
      isPointInPolygon, getEGDAnalysis, egdResultOf, egdSelect, ratioSelect,
      egdWidthAt, egdL, egdW, egdRatio, egdMaxD, egdPA, egdPB, diamSearch, allPairs,
      calculateDistance, axisMag, axisDx, axisDy, axisNx, axisNy, aRefRad, projX,
      projY, fromXY, closedPoly, getWidthAtAxisPoint, widthIntersections, listMin,
      listMax, egdSegEnd, round1, round_eq, earthR, ydPerM, evalOps, gp, colPts,
      abs_lt, abs_of_nonneg, min_def, max_def, Finset.sum_range_succ,
      Finset.sum_range_zero, show List.range 3 = [0, 1, 2] from rfl,
      show List.range 4 = [0, 1, 2, 3] from rfl]
  exact ⟨hs1, hpart1.1, hpart1.2.1, hs, hL,
    (egd_force_simple_and_split_mode.2 evalOps colPts (0.82) _ hs hL).1⟩
